import Mathlib

/-!
Verification of the SMS-Gateway-Automation repository.

Shallow embedding of the two services:
  * `messenger_server.py` — message parsing/validation (`validate_message`)
    and the forwarding section of `messenger_webhook`;
  * `server.py` — reference generation (`generate_reference`), transaction
    intake (`reload`), and the queue read endpoints (`get_queue`,
    `get_status`).

Python-level behaviours (whitespace splitting, `int()` string parsing,
`int()` coercion of JSON values, dict lookup) are embedded explicitly.
The embedding restricts Python string predicates (`isalnum`, `\d`,
`isspace`) to their ASCII fragments; none of the claims involve
non-ASCII input.
-/

/-! ## Python string primitives -/

/-- ASCII whitespace characters recognised by Python `str.split()` /
`str.strip()` (the embedding omits the non-ASCII Unicode whitespace). -/
def isPyWs (c : Char) : Bool :=
  c = ' ' || c = '\t' || c = '\n' || c = '\r' || c = '\x0b' || c = '\x0c'

/-- Python `str.strip()` with no argument: remove leading and trailing
whitespace. -/
def pyStrip (s : String) : String :=
  ⟨((s.toList.dropWhile isPyWs).reverse.dropWhile isPyWs).reverse⟩

/-- Worker for `pySplit`: `cur` holds the characters of the token being
read, in reverse. Whitespace runs close the current token (if any);
no empty tokens are produced, matching Python `str.split()` with no
argument. -/
def pySplitAux : List Char → List Char → List String
  | [], cur => if cur.isEmpty then [] else [⟨cur.reverse⟩]
  | c :: rest, cur =>
    if isPyWs c then
      if cur.isEmpty then pySplitAux rest []
      else ⟨cur.reverse⟩ :: pySplitAux rest []
    else pySplitAux rest (c :: cur)

/-- Python `str.split()` with no argument: split on runs of whitespace,
discarding empty pieces. -/
def pySplit (s : String) : List String := pySplitAux s.toList []

/-- Digit-run parser for Python `int(str)`: after the first digit, single
underscores are allowed between digits (`"1_0"` parses, `"1__0"`, `"1_"`
do not). Accumulates the value in base 10. -/
def pyDigitsAux : List Char → Nat → Option Nat
  | [], acc => some acc
  | c :: rest, acc =>
    if c.isDigit then pyDigitsAux rest (10 * acc + (c.toNat - 48))
    else if c = '_' then
      match rest with
      | [] => none
      | d :: rest₂ =>
        if d.isDigit then pyDigitsAux rest₂ (10 * acc + (d.toNat - 48))
        else none
    else none

/-- The digit part of Python `int(str)`: a nonempty digit sequence, with
single underscores permitted between digits. -/
def pyDigits (cs : List Char) : Option Nat :=
  match cs with
  | [] => none
  | c :: rest => if c.isDigit then pyDigitsAux rest (c.toNat - 48) else none

/-- Python `int(str)`: optional surrounding whitespace, an optional single
sign, then digits (ASCII fragment; Python additionally accepts non-ASCII
Unicode digits, which no claim involves). `none` models `ValueError`. -/
def pyInt (s : String) : Option Int :=
  let cs := ((s.toList.dropWhile isPyWs).reverse.dropWhile isPyWs).reverse
  match cs with
  | '+' :: rest => (pyDigits rest).map (fun n => (n : Int))
  | '-' :: rest => (pyDigits rest).map (fun n => -(n : Int))
  | _ => (pyDigits cs).map (fun n => (n : Int))

/-- Python `str.upper()` (ASCII fragment). -/
def pyUpper (s : String) : String := ⟨s.toList.map Char.toUpper⟩

/-- Python `str.isalnum()` (ASCII fragment): nonempty and every character
a letter or digit. -/
def pyIsAlnum (s : String) : Bool :=
  !s.toList.isEmpty && s.toList.all Char.isAlphanum

/-- Python `str.startswith('G')`: the first character is `G`. -/
def startswithG (s : String) : Bool :=
  match s.toList with
  | c :: _ => c = 'G'
  | [] => false

/-! ## JSON values

JSON numbers arriving through `request.json` are Python `int` or `float`;
the embedding carries floats as exact rationals (every finite binary64
value is a rational; non-finite floats are outside the model). -/

/-- A JSON value as produced by Python `json` parsing. -/
inductive Json where
  | null : Json
  | bool : Bool → Json
  | int : Int → Json
  | float : Rat → Json
  | str : String → Json
  | arr : List Json → Json
  | obj : List (String × Json) → Json
deriving Repr

/-- Python `int(x)` applied to a JSON value: identity on ints, `False`/`True`
to 0/1 (bool subclasses int), string parsing for strings, truncation toward
zero for floats (`Int.tdiv`); `None`, lists and dicts raise `TypeError`
(`none`). -/
def pyIntOfJson : Json → Option Int
  | .int n => some n
  | .bool b => some (if b then 1 else 0)
  | .str s => pyInt s
  | .float q => some (q.num.tdiv (q.den : Int))
  | _ => none

/-- Python dict lookup on an association list with distinct keys
(`data[k]` succeeds / `k in data` holds iff the key is present). -/
def dictGet (data : List (String × Json)) (k : String) : Option Json :=
  (data.find? (fun kv => kv.1 == k)).map (fun kv => kv.2)

deriving instance DecidableEq for Except

/-! ## messenger_server.py — validate_message -/

/-- The structured Reload Request produced by `validate_message`
(`msisdn`, `promo`, `amount`, `network`). -/
structure Reload where
  msisdn : String
  promo : String
  amount : Int
  network : String
deriving DecidableEq, Repr

/-- The format-error message of `validate_message` (token count ≠ 3). -/
def fmtErrMsg : String :=
  "Invalid format. Expected: MSISDN PROMO AMOUNT (e.g., 09171234567 GIGA99 99)"

/-- `PHONE_PATTERN = re.compile(r'^09\d{9}$')` applied with `.match`:
exactly the strings `09` followed by nine digits (ASCII fragment of `\d`;
tokens produced by `split()` contain no newline, so `$` is end-of-string
here). -/
def phoneMatch (s : String) : Bool :=
  s.toList.length = 11 && decide (s.toList.take 2 = ['0', '9'])
    && (s.toList.drop 2).all Char.isDigit

/-- Lines 44–70 of `messenger_server.py`: the checks applied to the three
tokens once the split has produced exactly three parts. -/
def checkTokens (msisdn promo amount_str : String) : Except String Reload :=
  if !(phoneMatch msisdn) then
    .error ("Invalid phone number format: " ++ msisdn ++ ". Must be 09XXXXXXXXX")
  else if !(pyIsAlnum promo) || promo.length > 20 then
    .error ("Invalid promo code: " ++ promo)
  else
    match pyInt amount_str with
    | none => .error ("Invalid amount: " ++ amount_str ++ ". Must be a number")
    | some amount =>
      if amount ≤ 0 || amount > 10000 then
        .error ("Invalid amount: " ++ toString amount ++ ". Must be between 1 and 10000")
      else
        .ok { msisdn := msisdn
              promo := pyUpper promo
              amount := amount
              network := if startswithG (pyUpper promo) then "SMART" else "GLOBE" }

/-- `validate_message(text)` for a string argument (`isinstance(text, str)`
holds; `not text` is true exactly for the empty string). Returns either a
Reload Request or the error message (the Python function returns the pair
`(parsed, error)` with exactly one side set). -/
def validate_message (text : String) : Except String Reload :=
  if text = "" then .error "Message text is required"
  else
    match pySplit (pyStrip text) with
    | [msisdn, promo, amount_str] => checkTokens msisdn promo amount_str
    | _ => .error fmtErrMsg

example : validate_message "09171234567 GIGA99 99" =
    .ok { msisdn := "09171234567", promo := "GIGA99", amount := 99, network := "SMART" } := by
  decide

example : validate_message "09171234567 ML10 50" =
    .ok { msisdn := "09171234567", promo := "ML10", amount := 50, network := "GLOBE" } := by
  decide

example : validate_message "" = .error "Message text is required" := by decide

example : validate_message "a b" = .error fmtErrMsg := by decide

example : validate_message "09171234567 GIGA99 10001" =
    .error "Invalid amount: 10001. Must be between 1 and 10000" := by decide

/-! ## messenger_server.py — the forwarding section of messenger_webhook

The single `requests.post` call (lines 103–146) is embedded as a function
of its observable outcome: the request times out, the connection fails, or
a reply arrives with some final status code and a body that either parses
as JSON or does not. `raise_for_status()` raises `HTTPError` exactly for
status codes in [400, 600); it runs before `response.json()`, so an error
status wins over an unparseable body. Other `requests` exceptions
(e.g. redirect loops) escape to the outer handler and are outside this
five-outcome model. -/

/-- Observable outcome of the one `requests.post` forward attempt. `body`
is the JSON parse of the reply body (`none` = `response.json()` raises). -/
inductive ForwardOutcome where
  | timeout : ForwardOutcome
  | connError : ForwardOutcome
  | reply (status : Nat) (body : Option Json) : ForwardOutcome

/-- The webhook's caller-facing reply: the `status` and `message` fields of
the JSON body, the optional `gateway` field, and the HTTP code. -/
structure FwdResp where
  status : String
  message : String
  gateway : Option Json
  code : Nat
deriving Repr

/-- Lines 103–146 of `messenger_server.py`: map the forward outcome to the
caller-facing reply. -/
def forward (o : ForwardOutcome) : FwdResp :=
  match o with
  | .timeout => ⟨"error", "Gateway timeout", none, 504⟩
  | .connError => ⟨"error", "Gateway unavailable", none, 503⟩
  | .reply status body =>
    if 400 ≤ status ∧ status < 600 then
      ⟨"error", "Gateway error: " ++ toString status, none, 502⟩
    else
      match body with
      | some j => ⟨"success", "Transaction queued", some j, 200⟩
      | none => ⟨"error", "Invalid gateway response", none, 502⟩

/-- The forward classification as the claim words it (for comparison with
`forward`): success requires a 2xx status, and every non-2xx reply is a
gateway error carrying the upstream status. -/
def forwardPerClaim (o : ForwardOutcome) : FwdResp :=
  match o with
  | .timeout => ⟨"error", "Gateway timeout", none, 504⟩
  | .connError => ⟨"error", "Gateway unavailable", none, 503⟩
  | .reply status body =>
    if 200 ≤ status ∧ status < 300 then
      match body with
      | some j => ⟨"success", "Transaction queued", some j, 200⟩
      | none => ⟨"error", "Invalid gateway response", none, 502⟩
    else
      ⟨"error", "Gateway error: " ++ toString status, none, 502⟩

/-! ## server.py — reference generation -/

/-- A calendar date. `datetime` restricts years to 1..9999, so
`strftime('%Y%m%d')` always yields eight digits. -/
structure Date where
  year : Nat
  month : Nat
  day : Nat
deriving DecidableEq, Repr

/-- Zero-padded 4-digit decimal rendering (`%Y` for years ≤ 9999). -/
def pad4 (n : Nat) : List Char :=
  [Nat.digitChar (n / 1000 % 10), Nat.digitChar (n / 100 % 10),
   Nat.digitChar (n / 10 % 10), Nat.digitChar (n % 10)]

/-- Zero-padded 2-digit decimal rendering (`%m`, `%d`). -/
def pad2 (n : Nat) : List Char :=
  [Nat.digitChar (n / 10 % 10), Nat.digitChar (n % 10)]

/-- `strftime('%Y%m%d')`: eight characters, year then month then day,
zero-padded. -/
def dateDigits (d : Date) : List Char :=
  pad4 d.year ++ pad2 d.month ++ pad2 d.day

/-- One reading of the wall clock at intake time. `datetime.now()` with no
timezone argument yields the date in the server's LOCAL timezone; the UTC
date at the same instant is carried alongside so statements about it can
be made. The two dates differ whenever local midnight and UTC midnight
fall on different sides of the instant. -/
structure Clock where
  localDate : Date
  utcDate : Date
deriving DecidableEq, Repr

/-- The alphabet of `str(uuid.uuid4())` between the dashes: lowercase
hexadecimal digits. -/
def lowerHexChars : List Char := "0123456789abcdef".toList

/-- The alphabet of an uppercased hex suffix. -/
def upperHexChars : List Char := "0123456789ABCDEF".toList

/-- Lowercase hexadecimal digit. -/
def isLowerHex (c : Char) : Bool := lowerHexChars.contains c

/-- Canonical form of `str(uuid.uuid4())` (documented output of the `uuid`
library): five dash-separated groups of 8, 4, 4, 4, 12 lowercase hex
digits — 36 characters with dashes at positions 8, 13, 18, 23. -/
def isUuid4String (u : String) : Bool :=
  let cs := u.toList
  decide (cs.length = 36)
    && (cs.take 8).all isLowerHex
    && decide (cs.getD 8 ' ' = '-') && ((cs.drop 9).take 4).all isLowerHex
    && decide (cs.getD 13 ' ' = '-') && ((cs.drop 14).take 4).all isLowerHex
    && decide (cs.getD 18 ' ' = '-') && ((cs.drop 19).take 4).all isLowerHex
    && decide (cs.getD 23 ' ' = '-') && (cs.drop 24).all isLowerHex

/-- The fixed prefix of every generated reference. -/
def refPre : List Char := ['T', 'X', 'N', '-']

/-- `generate_reference()` of `server.py`, its two ambient inputs made
explicit: the local date read by `datetime.now()` and the canonical string
of the fresh `uuid.uuid4()`. The suffix is `str(uuid4())[:8].upper()`:
the first eight characters, uppercased. -/
def generate_reference (localDate : Date) (uuidStr : String) : String :=
  ⟨refPre ++ dateDigits localDate ++ '-' :: (uuidStr.toList.take 8).map Char.toUpper⟩

/-! ## server.py — transaction intake and queue reads -/

/-- A Transaction Record as built by `reload` (lines 71–80). The values
taken verbatim from the request JSON (`msisdn`, `promo`, `network`) keep
their JSON type. -/
structure Txn where
  reference : String
  msisdn : Json
  promo : Json
  amount : Int
  network : Json
  status : String
  timestamp : String
  remote_addr : String
deriving Repr

/-- Ambient per-request inputs of `reload`: the clock reading and uuid draw
consumed by `generate_reference`, and the request's timestamp and origin. -/
structure Ctx where
  clock : Clock
  uuidStr : String
  timestamp : String
  remote_addr : String

/-- The `/reload` response: a 400 error body (`status` `ERROR` with a
message) or the 200 success body (`status` `QUEUED`, reference, 1-based
queue position). The 500 path of the outer handler is unreachable in the
embedded fragment. -/
inductive ReloadResp where
  | error (message : String) : ReloadResp
  | queued (reference : String) (queue_position : Nat) : ReloadResp
deriving DecidableEq, Repr

/-- The text of the `ValueError`/`TypeError` raised by `int(v)` on a
non-coercible value; CPython's exact wording is abstracted here (no claim
inspects it, only the `Invalid amount: ` framing of line 64). -/
def intErrText (v : Json) : String :=
  match v with
  | .str s => "invalid literal for int() with base 10: " ++ s
  | _ => "int() argument is not a string or a number"

/-- Lines 32–92 of `server.py` (`reload`), for a parsed JSON object body:
empty-dict check, required-field check in order, `int` coercion of
`amount` with the strict-positivity check folded into the same
try/except, then record construction and append. Returns the queue after
the call and the response. -/
def reload (q : List Txn) (ctx : Ctx) (data : List (String × Json)) :
    List Txn × ReloadResp :=
  if data.isEmpty then (q, .error "Empty request body")
  else
    let missing := ["msisdn", "promo", "amount"].filter (fun f => (dictGet data f).isNone)
    if !missing.isEmpty then
      (q, .error ("Missing required fields: " ++ String.intercalate ", " missing))
    else
      match pyIntOfJson ((dictGet data "amount").getD .null) with
      | none =>
        (q, .error ("Invalid amount: " ++ intErrText ((dictGet data "amount").getD .null)))
      | some amount =>
        if amount ≤ 0 then (q, .error "Invalid amount: Amount must be positive")
        else
          let reference := generate_reference ctx.clock.localDate ctx.uuidStr
          let txn : Txn :=
            { reference := reference
              msisdn := (dictGet data "msisdn").getD .null
              promo := (dictGet data "promo").getD .null
              amount := amount
              network := (dictGet data "network").getD (.str "UNKNOWN")
              status := "QUEUED"
              timestamp := ctx.timestamp
              remote_addr := ctx.remote_addr }
          (q ++ [txn], .queued reference (q ++ [txn]).length)

/-- Success condition of `reload`, a function of the submitted data alone:
non-empty body, all three required keys present, and `int(amount)`
succeeding with a strictly positive result. -/
def intakeOk (data : List (String × Json)) : Bool :=
  !data.isEmpty
    && (["msisdn", "promo", "amount"].filter (fun f => (dictGet data f).isNone)).isEmpty
    && (match pyIntOfJson ((dictGet data "amount").getD .null) with
        | some amount => decide (0 < amount)
        | none => false)

/-- The `/queue` response body (lines 101–107). -/
structure QueueResp where
  queue_size : Nat
  transactions : List Txn
deriving Repr

/-- `get_queue`: queue size and `transaction_queue[-10:]`, the last
(up to) ten records in insertion order. -/
def get_queue (q : List Txn) : QueueResp :=
  ⟨q.length, q.drop (q.length - 10)⟩

/-- The `/status/<reference>` response: the full record (200) or the
NOT_FOUND body (404). -/
inductive StatusResp where
  | found (txn : Txn) : StatusResp
  | notFound (message : String) : StatusResp
deriving Repr

/-- `get_status` (lines 109–119): first record whose `reference` matches,
else NOT_FOUND. -/
def get_status (q : List Txn) (reference : String) : StatusResp :=
  match q.find? (fun txn => txn.reference == reference) with
  | some txn => .found txn
  | none => .notFound ("Transaction " ++ reference ++ " not found")

/-- One inbound gateway request: an intake, a queue listing, or a status
lookup. -/
inductive Op where
  | intake (ctx : Ctx) (data : List (String × Json)) : Op
  | queueList : Op
  | statusLookup (reference : String) : Op

/-- Effect of one request on the shared queue: only a successful intake
changes it. -/
def stepQueue (q : List Txn) : Op → List Txn
  | .intake ctx data => (reload q ctx data).1
  | .queueList => q
  | .statusLookup _ => q

/-- Running a sequence of requests against the queue. -/
def runOps (q : List Txn) (ops : List Op) : List Txn :=
  ops.foldl stepQueue q

example :
    generate_reference ⟨2026, 10, 12⟩ "1f3a9b2c-0d4e-4a5b-8c6d-7e8f9a0b1c2d" =
      "TXN-20261012-1F3A9B2C" := by decide

example : isUuid4String "1f3a9b2c-0d4e-4a5b-8c6d-7e8f9a0b1c2d" = true := by decide

/-! ## Helper lemmas: reference format -/

lemma digitChar_mod_isDigit (n : Nat) : (Nat.digitChar (n % 10)).isDigit = true := by
  have h : n % 10 < 10 := Nat.mod_lt n (by decide)
  interval_cases h : n % 10 <;> decide

lemma dateDigits_length (d : Date) : (dateDigits d).length = 8 := rfl

lemma dateDigits_all_digits (d : Date) : (dateDigits d).all Char.isDigit = true := by
  simp [dateDigits, pad4, pad2, digitChar_mod_isDigit]

lemma toUpper_mem_upperHex {c : Char} (h : isLowerHex c = true) :
    upperHexChars.contains (Char.toUpper c) = true := by
  have hm : c ∈ lowerHexChars := by simpa [isLowerHex] using h
  have key : ∀ x ∈ lowerHexChars, upperHexChars.contains (Char.toUpper x) = true := by
    decide
  exact key c hm

lemma map_toUpper_all_upperHex {cs : List Char} (h : cs.all isLowerHex = true) :
    (cs.map Char.toUpper).all (fun c => upperHexChars.contains c) = true := by
  rw [List.all_map]
  rw [List.all_eq_true] at h ⊢
  intro x hx
  exact toUpper_mem_upperHex (h x hx)

lemma generate_reference_toList (d : Date) (u : String) :
    (generate_reference d u).toList =
      refPre ++ dateDigits d ++ '-' :: (u.toList.take 8).map Char.toUpper := rfl

lemma generate_reference_inj (d₁ d₂ : Date) (u₁ u₂ : String) :
    generate_reference d₁ u₁ = generate_reference d₂ u₂ ↔
      (dateDigits d₁ = dateDigits d₂ ∧
        (u₁.toList.take 8).map Char.toUpper = (u₂.toList.take 8).map Char.toUpper) := by
  constructor
  · intro h
    have hl := congrArg String.toList h
    rw [generate_reference_toList, generate_reference_toList] at hl
    have hlen : (refPre ++ dateDigits d₁).length = (refPre ++ dateDigits d₂).length := by
      simp [refPre, dateDigits_length]
    obtain ⟨ha, hb⟩ := List.append_inj hl hlen
    refine ⟨List.append_cancel_left ha, ?_⟩
    injection hb
  · rintro ⟨h₁, h₂⟩
    unfold generate_reference
    rw [h₁, h₂]

/-- The instant used for the counterexamples: local time and UTC are on
different calendar days (as happens around UTC midnight in any timezone
east or west of it). -/
def clockEx : Clock := ⟨⟨2026, 10, 12⟩, ⟨2026, 10, 13⟩⟩

/-- A concrete canonical uuid4 string. -/
def uuidEx : String := "1f3a9b2c-0d4e-4a5b-8c6d-7e8f9a0b1c2d"

/-- C3 counterexample: `generate_reference` formats the LOCAL date read by
`datetime.now()`, not the UTC date. At an instant when the two dates
differ, no choice of suffix makes the generated reference carry the UTC
date claimed. -/
theorem C3_counterexample :
    isUuid4String uuidEx = true ∧
    ¬ ∃ sfx : List Char,
        (generate_reference clockEx.localDate uuidEx).toList =
          refPre ++ dateDigits clockEx.utcDate ++ '-' :: sfx := by
  refine ⟨by decide, ?_⟩
  rintro ⟨sfx, h⟩
  have h12 := congrArg (List.take 12) h
  rw [List.take_left'
    (show (refPre ++ dateDigits clockEx.utcDate).length = 12 by decide)] at h12
  exact absurd h12 (by decide)

/-- C3 (amended): for a well-formed uuid4 string, the generated reference
is the literal `TXN-`, then the current LOCAL date (as read by
`datetime.now()`) as eight digits, then `-`, then exactly eight uppercase
hexadecimal characters. -/
theorem C3_reference_format (c : Clock) (u : String) (h : isUuid4String u = true) :
    ∃ sfx : List Char,
      (generate_reference c.localDate u).toList =
          refPre ++ dateDigits c.localDate ++ '-' :: sfx ∧
        sfx.length = 8 ∧
        sfx.all (fun ch => upperHexChars.contains ch) = true ∧
        (dateDigits c.localDate).length = 8 ∧
        (dateDigits c.localDate).all Char.isDigit = true := by
  refine ⟨(u.toList.take 8).map Char.toUpper, rfl, ?_, ?_,
    dateDigits_length _, dateDigits_all_digits _⟩
  · unfold isUuid4String at h
    simp only [Bool.and_eq_true, decide_eq_true_eq] at h
    have hlen : u.toList.length = 36 := h.1.1.1.1.1.1.1.1.1
    have hlen₂ : u.length = 36 := hlen
    simp [List.length_take]
    omega
  · unfold isUuid4String at h
    simp only [Bool.and_eq_true, decide_eq_true_eq] at h
    exact map_toUpper_all_upperHex h.1.1.1.1.1.1.1.1.2

/-- C3 witness at a concrete clock and uuid. -/
theorem C3_reference_format_witness :
    ∃ sfx : List Char,
      (generate_reference clockEx.localDate uuidEx).toList =
          refPre ++ dateDigits clockEx.localDate ++ '-' :: sfx ∧
        sfx.length = 8 ∧
        sfx.all (fun ch => upperHexChars.contains ch) = true ∧
        (dateDigits clockEx.localDate).length = 8 ∧
        (dateDigits clockEx.localDate).all Char.isDigit = true :=
  C3_reference_format clockEx uuidEx (by decide)

/-! ## Helper lemmas: reload -/

/-- The Transaction Record committed by a successful `reload` call
(lines 71–80 of `server.py`). -/
def mkTxn (ctx : Ctx) (data : List (String × Json)) : Txn :=
  { reference := generate_reference ctx.clock.localDate ctx.uuidStr
    msisdn := (dictGet data "msisdn").getD .null
    promo := (dictGet data "promo").getD .null
    amount := (pyIntOfJson ((dictGet data "amount").getD .null)).getD 0
    network := (dictGet data "network").getD (.str "UNKNOWN")
    status := "QUEUED"
    timestamp := ctx.timestamp
    remote_addr := ctx.remote_addr }

lemma reload_of_intakeOk {data : List (String × Json)} (h : intakeOk data = true)
    (q : List Txn) (ctx : Ctx) :
    reload q ctx data =
      (q ++ [mkTxn ctx data],
        .queued (generate_reference ctx.clock.localDate ctx.uuidStr) (q.length + 1)) := by
  unfold intakeOk at h
  simp only [Bool.and_eq_true] at h
  obtain ⟨⟨h₁, h₂⟩, h₃⟩ := h
  obtain ⟨amount, hamt, hpos⟩ :
      ∃ amount, pyIntOfJson ((dictGet data "amount").getD .null) = some amount ∧
        0 < amount := by
    rcases he : pyIntOfJson ((dictGet data "amount").getD .null) with _ | a
    · rw [he] at h₃; cases h₃
    · rw [he] at h₃; exact ⟨a, rfl, by simpa using h₃⟩
  have h₁' : data.isEmpty = false := by simpa using h₁
  unfold reload mkTxn
  simp [h₁', h₂, hamt, Int.not_le.mpr hpos]

lemma reload_of_not_intakeOk {data : List (String × Json)} (h : intakeOk data = false)
    (q : List Txn) (ctx : Ctx) :
    (reload q ctx data).1 = q ∧ ∃ m, (reload q ctx data).2 = .error m := by
  unfold intakeOk at h
  unfold reload
  rcases h₁ : data.isEmpty with _ | _
  · rcases h₂ : (["msisdn", "promo", "amount"].filter
        (fun f => (dictGet data f).isNone)).isEmpty with _ | _
    · simp [h₁, h₂]
    · rcases he : pyIntOfJson ((dictGet data "amount").getD .null) with _ | a
      · simp [h₁, h₂, he]
      · rw [h₁, h₂, he] at h
        have ha : a ≤ 0 := by simpa using h
        simp [h₁, h₂, he, ha]
  · simp [h₁]

lemma reload_success {q q' : List Txn} {ctx : Ctx} {data : List (String × Json)}
    {r : String} {p : Nat} (h : reload q ctx data = (q', .queued r p)) :
    intakeOk data = true ∧
      r = generate_reference ctx.clock.localDate ctx.uuidStr ∧
      q' = q ++ [mkTxn ctx data] ∧ p = q.length + 1 := by
  rcases hok : intakeOk data with _ | _
  · obtain ⟨-, m, hm⟩ := reload_of_not_intakeOk hok q ctx
    rw [h] at hm
    cases hm
  · rw [reload_of_intakeOk hok q ctx] at h
    have h₁ : q ++ [mkTxn ctx data] = q' := congrArg Prod.fst h
    have h₂ : ReloadResp.queued (generate_reference ctx.clock.localDate ctx.uuidStr)
        (q.length + 1) = .queued r p := congrArg Prod.snd h
    injection h₂ with hr hp
    exact ⟨rfl, hr.symm, h₁.symm, hp.symm⟩

/-! ## C1 — reference uniqueness across sequential intakes -/

/-- A concrete intake context (uuid draw `aaaaaaaa…`, local date
2026-10-12). -/
def ctxA : Ctx :=
  ⟨⟨⟨2026, 10, 12⟩, ⟨2026, 10, 12⟩⟩, "aaaaaaaa-bbbb-4ccc-8ddd-eeeeffff0000",
    "2026-10-12T08:00:00", "10.0.0.1"⟩

/-- A concrete valid intake body. -/
def dataA : List (String × Json) :=
  [("msisdn", .str "09171234567"), ("promo", .str "GIGA99"), ("amount", .int 99)]

/-- C1 counterexample: `generate_reference` draws a fresh `uuid4` with no
collision check against the queue, so two sequential successful intakes
whose local date and 8-character uuid prefix coincide commit the SAME
reference: both intakes below succeed and both are assigned
`TXN-20261012-AAAAAAAA`. -/
theorem C1_counterexample :
    (reload [] ctxA dataA).2 = .queued "TXN-20261012-AAAAAAAA" 1 ∧
    (reload (reload [] ctxA dataA).1 ctxA dataA).2 = .queued "TXN-20261012-AAAAAAAA" 2 := by
  constructor <;> decide

/-- C1 (amended): the references assigned by two sequential successful
intakes are equal exactly when the two generation inputs coincide — same
formatted local date and same uppercased 8-character uuid prefix. In
particular the references differ whenever the random suffixes differ, but
nothing in the code rules out equal draws. -/
theorem C1_references_eq_iff (q q₁ q₂ : List Txn) (ctx₁ ctx₂ : Ctx)
    (data₁ data₂ : List (String × Json)) (r₁ r₂ : String) (p₁ p₂ : Nat)
    (h₁ : reload q ctx₁ data₁ = (q₁, .queued r₁ p₁))
    (h₂ : reload q₁ ctx₂ data₂ = (q₂, .queued r₂ p₂)) :
    r₁ = r₂ ↔
      (dateDigits ctx₁.clock.localDate = dateDigits ctx₂.clock.localDate ∧
        (ctx₁.uuidStr.toList.take 8).map Char.toUpper =
          (ctx₂.uuidStr.toList.take 8).map Char.toUpper) := by
  rw [(reload_success h₁).2.1, (reload_success h₂).2.1]
  exact generate_reference_inj ctx₁.clock.localDate ctx₂.clock.localDate
    ctx₁.uuidStr ctx₂.uuidStr

/-- A second concrete intake context, differing from `ctxA` in its uuid
draw. -/
def ctxB : Ctx := ⟨clockEx, uuidEx, "2026-10-12T08:00:01", "10.0.0.2"⟩

/-- C1 witness: two concrete sequential intakes with distinct uuid draws
get distinct references. -/
theorem C1_references_eq_iff_witness :
    ("TXN-20261012-AAAAAAAA" = "TXN-20261012-1F3A9B2C" ↔
      (dateDigits ctxA.clock.localDate = dateDigits ctxB.clock.localDate ∧
        (ctxA.uuidStr.toList.take 8).map Char.toUpper =
          (ctxB.uuidStr.toList.take 8).map Char.toUpper)) :=
  C1_references_eq_iff [] ([] ++ [mkTxn ctxA dataA])
    (([] ++ [mkTxn ctxA dataA]) ++ [mkTxn ctxB dataA])
    ctxA ctxB dataA dataA "TXN-20261012-AAAAAAAA" "TXN-20261012-1F3A9B2C" 1 2
    (by
      rw [reload_of_intakeOk (show intakeOk dataA = true by decide) [] ctxA,
        show generate_reference ctxA.clock.localDate ctxA.uuidStr =
          "TXN-20261012-AAAAAAAA" from by decide]
      rfl)
    (by
      rw [reload_of_intakeOk (show intakeOk dataA = true by decide)
          ([] ++ [mkTxn ctxA dataA]) ctxB,
        show generate_reference ctxB.clock.localDate ctxB.uuidStr =
          "TXN-20261012-1F3A9B2C" from by decide]
      rfl)

/-! ## C2 — forward outcome classification -/

lemma gatewayError_ne_invalid (x : String) :
    ("Gateway error: " ++ x) ≠ "Invalid gateway response" := by
  intro h
  have h0 := congrArg (fun t => t.data.head?) h
  simp only [String.data_append, List.head?_append] at h0
  rw [show ("Gateway error: ".data.head?) = some 'G' from by decide,
    show ("Invalid gateway response".data.head?) = some 'I' from by decide] at h0
  simp [Option.or] at h0

/-- C2 counterexample: `raise_for_status()` raises only for statuses in
[400, 600), so a final 300 reply with a parseable body is reported as
success — while the claim classifies every non-2xx reply as a 502 gateway
error carrying the upstream status (`forwardPerClaim`). -/
theorem C2_counterexample :
    forward (.reply 300 (some .null)) =
        ⟨"success", "Transaction queued", some .null, 200⟩ ∧
      forwardPerClaim (.reply 300 (some .null)) =
        ⟨"error", "Gateway error: " ++ toString 300, none, 502⟩ ∧
      (200 : Nat) ≠ 502 :=
  ⟨rfl, rfl, by decide⟩

/-- C2 (amended): each forward attempt yields exactly one of five outcomes
with stable, pairwise-distinguishable responses — timeout → 504, connection
failure → 503, final status in [400, 600) → 502 carrying the upstream
status, any other final status with parseable body → 200 success with the
gateway body, any other final status with unparseable body → 502 Invalid
gateway response. (The claim's "2xx" boundary is corrected to "outside
[400, 600)", the range `raise_for_status()` raises for.) No retry exists:
the reply is a function of the single attempt's outcome. -/
theorem C2_forward_classification :
    forward .timeout = ⟨"error", "Gateway timeout", none, 504⟩ ∧
      forward .connError = ⟨"error", "Gateway unavailable", none, 503⟩ ∧
      (∀ s b, 400 ≤ s → s < 600 →
        forward (.reply s b) = ⟨"error", "Gateway error: " ++ toString s, none, 502⟩) ∧
      (∀ s j, ¬(400 ≤ s ∧ s < 600) →
        forward (.reply s (some j)) = ⟨"success", "Transaction queued", some j, 200⟩) ∧
      (∀ s, ¬(400 ≤ s ∧ s < 600) →
        forward (.reply s none) = ⟨"error", "Invalid gateway response", none, 502⟩) ∧
      (∀ s : Nat, ("Gateway error: " ++ toString s) ≠ "Invalid gateway response") ∧
      ((200 : Nat) ≠ 502 ∧ (200 : Nat) ≠ 503 ∧ (200 : Nat) ≠ 504 ∧
        (502 : Nat) ≠ 503 ∧ (502 : Nat) ≠ 504 ∧ (503 : Nat) ≠ 504) := by
  refine ⟨rfl, rfl, ?_, ?_, ?_, fun s => gatewayError_ne_invalid (toString s), by decide⟩
  · intro s b hlo hhi
    simp [forward, hlo, hhi]
  · intro s j h
    simp [forward, h]
  · intro s h
    simp [forward, h]

/-- C2 witness at a concrete 500 reply. -/
theorem C2_forward_classification_witness :
    forward (.reply 500 none) = ⟨"error", "Gateway error: " ++ toString 500, none, 502⟩ :=
  C2_forward_classification.2.2.1 500 none (by decide) (by decide)

/-! ## C4 — token count -/

/-- C4 counterexample: the empty string has 0 ≠ 3 whitespace-separated
tokens, yet `validate_message` returns `Message text is required` (the
`not text` guard), not the format error with the canonical example. -/
theorem C4_counterexample :
    (pySplit (pyStrip "")).length = 0 ∧
      validate_message "" = .error "Message text is required" ∧
      "Message text is required" ≠ fmtErrMsg := by
  exact ⟨by decide, by decide, by decide⟩

/-- C4 (amended): every NON-EMPTY string whose token count is not 3 gets
the format error (which contains the canonical example); no string with
token count ≠ 3 — the empty string included — ever yields a structured
result. -/
theorem C4_token_count (s : String) (h : (pySplit (pyStrip s)).length ≠ 3) :
    (s ≠ "" → validate_message s = .error fmtErrMsg) ∧
      (∀ r : Reload, validate_message s ≠ .ok r) ∧
      (∃ pre post, fmtErrMsg = pre ++ "09171234567 GIGA99 99" ++ post) := by
  have key : s ≠ "" → validate_message s = .error fmtErrMsg := by
    intro hs
    unfold validate_message
    rw [if_neg hs]
    rcases hl : pySplit (pyStrip s) with _ | ⟨a, _ | ⟨b, _ | ⟨c, _ | ⟨d, rest⟩⟩⟩⟩
    · rfl
    · rfl
    · rfl
    · rw [hl] at h
      simp at h
    · rfl
  refine ⟨key, ?_, "Invalid format. Expected: MSISDN PROMO AMOUNT (e.g., ", ")", by decide⟩
  intro r
  by_cases hs : s = ""
  · simp [validate_message, hs]
  · rw [key hs]
    simp

/-- C4 witness at a concrete 2-token string. -/
theorem C4_token_count_witness :
    validate_message "a b" = .error fmtErrMsg :=
  (C4_token_count "a b" (by decide)).1 (by decide)

/-! ## C5, C6 — the three-token checks -/

lemma validate_message_split {text m p a : String}
    (h : pySplit (pyStrip text) = [m, p, a]) :
    validate_message text = checkTokens m p a := by
  have ht : text ≠ "" := by
    intro he
    rw [he, show pySplit (pyStrip "") = [] from by decide] at h
    exact absurd h (by simp)
  unfold validate_message
  rw [if_neg ht, h]

lemma amount_msgs_distinct (s t : String) :
    ("Invalid amount: " ++ s ++ ". Must be a number") ≠
      ("Invalid amount: " ++ t ++ ". Must be between 1 and 10000") := by
  intro h
  have h0 := congrArg (fun u => u.data.reverse.head?) h
  simp only [String.data_append, List.reverse_append, List.head?_append] at h0
  rw [show (". Must be a number".data.reverse.head?) = some 'r' from by decide,
    show (". Must be between 1 and 10000".data.reverse.head?) = some '0' from by decide] at h0
  simp [Option.or] at h0

/-- C5: for a three-token message whose msisdn and promo pass their checks,
the amount token is accepted exactly when Python `int()` parses it to a
value in [1, 10000]; non-numeric and out-of-range amounts are rejected
with distinct messages; boundary values 1 and 10000 succeed, 0 and 10001
fail. -/
theorem C5_amount_range (text m p a : String)
    (hsplit : pySplit (pyStrip text) = [m, p, a])
    (hm : phoneMatch m = true) (hp : pyIsAlnum p = true) (hlen : p.length ≤ 20) :
    ((∃ r, validate_message text = .ok r) ↔
        (∃ n, pyInt a = some n ∧ 1 ≤ n ∧ n ≤ 10000)) ∧
      (pyInt a = none →
        validate_message text = .error ("Invalid amount: " ++ a ++ ". Must be a number")) ∧
      (∀ n : Int, pyInt a = some n → (n ≤ 0 ∨ 10000 < n) →
        validate_message text =
          .error ("Invalid amount: " ++ toString n ++ ". Must be between 1 and 10000")) ∧
      (∀ (s : String) (n : Int),
        ("Invalid amount: " ++ s ++ ". Must be a number") ≠
          ("Invalid amount: " ++ toString n ++ ". Must be between 1 and 10000")) ∧
      (∃ r, validate_message "09171234567 GIGA99 1" = .ok r) ∧
      (∃ r, validate_message "09171234567 GIGA99 10000" = .ok r) ∧
      validate_message "09171234567 GIGA99 0" =
        .error "Invalid amount: 0. Must be between 1 and 10000" ∧
      validate_message "09171234567 GIGA99 10001" =
        .error "Invalid amount: 10001. Must be between 1 and 10000" := by
  rw [validate_message_split hsplit]
  unfold checkTokens
  rw [if_neg (by simp [hm]), if_neg (by simp [hp]; omega)]
  refine ⟨?_, ?_, ?_, fun s n => amount_msgs_distinct s (toString n),
    ⟨⟨"09171234567", "GIGA99", 1, "SMART"⟩, by decide⟩,
    ⟨⟨"09171234567", "GIGA99", 10000, "SMART"⟩, by decide⟩, by decide, by decide⟩
  · constructor
    · rintro ⟨r, hr⟩
      split at hr
      · cases hr
      · rename_i n hpi
        split at hr
        · cases hr
        · rename_i hcond
          refine ⟨n, hpi, ?_⟩
          simp only [Bool.or_eq_true, decide_eq_true_eq, not_or] at hcond
          omega
    · rintro ⟨n, hpi, hn₁, hn₂⟩
      split
      · rename_i heq
        rw [heq] at hpi
        cases hpi
      · rename_i amount heq
        rw [heq] at hpi
        injection hpi with hEq
        subst hEq
        rw [if_neg (by simp; omega)]
        exact ⟨_, rfl⟩
  · intro hpi
    split
    · rfl
    · rename_i amount heq
      rw [hpi] at heq
      cases heq
  · intro n hpi hrange
    split
    · rename_i heq
      rw [heq] at hpi
      cases hpi
    · rename_i amount heq
      rw [heq] at hpi
      injection hpi with hEq
      subst hEq
      rw [if_pos (by simp; omega)]

/-- C6: on successful parsing the network is SMART exactly when the
uppercased promo starts with `G` and GLOBE otherwise; the output promo is
the uppercased input promo; msisdn passes through unchanged and the output
amount is the parsed integer value of the amount token. -/
theorem C6_network_and_passthrough (text m p a : String) (r : Reload)
    (hsplit : pySplit (pyStrip text) = [m, p, a])
    (hok : validate_message text = .ok r) :
    r.msisdn = m ∧ r.promo = pyUpper p ∧ pyInt a = some r.amount ∧
      (r.network = "SMART" ↔ startswithG (pyUpper p) = true) ∧
      (startswithG (pyUpper p) = false → r.network = "GLOBE") := by
  rw [validate_message_split hsplit] at hok
  unfold checkTokens at hok
  split at hok
  · cases hok
  · split at hok
    · cases hok
    · split at hok
      · cases hok
      · rename_i n hpi
        split at hok
        · cases hok
        · injection hok with hr
          subst hr
          refine ⟨rfl, rfl, by rw [hpi], ?_, ?_⟩
          · rcases hg : startswithG (pyUpper p) with _ | _
            · simp [hg]
            · simp [hg]
          · intro hg
            simp [hg]

/-- C6 witness at a concrete message. -/
theorem C6_network_and_passthrough_witness :
    ((⟨"09171234567", "GIGA99", 99, "SMART"⟩ : Reload).msisdn = "09171234567" ∧
      (⟨"09171234567", "GIGA99", 99, "SMART"⟩ : Reload).promo = pyUpper "giga99" ∧
      pyInt "99" = some (⟨"09171234567", "GIGA99", 99, "SMART"⟩ : Reload).amount ∧
      ((⟨"09171234567", "GIGA99", 99, "SMART"⟩ : Reload).network = "SMART" ↔
        startswithG (pyUpper "giga99") = true) ∧
      (startswithG (pyUpper "giga99") = false →
        (⟨"09171234567", "GIGA99", 99, "SMART"⟩ : Reload).network = "GLOBE")) :=
  C6_network_and_passthrough "09171234567 giga99 99" "09171234567" "giga99" "99"
    ⟨"09171234567", "GIGA99", 99, "SMART"⟩ (by decide) (by decide)

/-- C5 witness at a concrete three-token split. -/
theorem C5_amount_range_witness :
    ((∃ r, validate_message "09171234567 GIGA99 99" = .ok r) ↔
      (∃ n, pyInt "99" = some n ∧ 1 ≤ n ∧ n ≤ 10000)) :=
  (C5_amount_range "09171234567 GIGA99 99" "09171234567" "GIGA99" "99"
    (by decide) (by decide) (by decide) (by decide)).1

/-! ## C7, C9 — queue growth and append-only invariant -/

/-- Whether a request is a successful intake. -/
def opOk : Op → Bool
  | .intake _ data => intakeOk data
  | _ => false

/-- Number of successful intakes in a request sequence. -/
def successCount (ops : List Op) : Nat := ops.countP opOk

lemma runOps_cons (q : List Txn) (op : Op) (ops : List Op) :
    runOps q (op :: ops) = runOps (stepQueue q op) ops := rfl

lemma stepQueue_length (q : List Txn) (op : Op) :
    (stepQueue q op).length = q.length + (if opOk op then 1 else 0) := by
  cases op with
  | intake ctx data =>
    rcases hok : intakeOk data with _ | _
    · obtain ⟨h₁, -⟩ := reload_of_not_intakeOk hok q ctx
      simp [stepQueue, h₁, opOk, hok]
    · have := reload_of_intakeOk hok q ctx
      simp [stepQueue, this, opOk, hok]
  | queueList => simp [stepQueue, opOk]
  | statusLookup r => simp [stepQueue, opOk]

lemma runOps_length (ops : List Op) :
    ∀ q, (runOps q ops).length = q.length + successCount ops := by
  induction ops with
  | nil =>
    intro q
    simp [runOps, successCount]
  | cons op ops ih =>
    intro q
    rw [runOps_cons, ih, stepQueue_length]
    unfold successCount
    rw [List.countP_cons]
    rcases h : opOk op with _ | _
    · simp [h]
    · simp [h]
      omega

/-- C7: a successful intake appends exactly its record to the queue; the
record carries status QUEUED; the response carries the generated reference
and a queue_position equal to the queue size immediately after insertion,
which — starting from the empty queue at process start — equals the number
of prior successful intakes plus 1. -/
theorem C7_queue_position (ops : List Op) (ctx : Ctx) (data : List (String × Json))
    (q' : List Txn) (r : String) (p : Nat)
    (h : reload (runOps [] ops) ctx data = (q', .queued r p)) :
    q' = runOps [] ops ++ [mkTxn ctx data] ∧
      (mkTxn ctx data).status = "QUEUED" ∧
      r = (mkTxn ctx data).reference ∧
      p = q'.length ∧
      p = successCount ops + 1 := by
  obtain ⟨hok, hr, hq, hp⟩ := reload_success h
  have hlen := runOps_length ops []
  refine ⟨hq, rfl, ?_, ?_, ?_⟩
  · rw [hr]
    rfl
  · rw [hq, hp]
    simp
  · rw [hp]
    simp at hlen
    omega

/-- C7 witness: a second intake after one successful intake reports
position 2. -/
theorem C7_queue_position_witness :
    (runOps [] [Op.intake ctxA dataA] ++ [mkTxn ctxB dataA] =
        runOps [] [Op.intake ctxA dataA] ++ [mkTxn ctxB dataA]) ∧
      (mkTxn ctxB dataA).status = "QUEUED" ∧
      generate_reference ctxB.clock.localDate ctxB.uuidStr = (mkTxn ctxB dataA).reference ∧
      ((runOps [] [Op.intake ctxA dataA]).length + 1 =
        (runOps [] [Op.intake ctxA dataA] ++ [mkTxn ctxB dataA]).length) ∧
      ((runOps [] [Op.intake ctxA dataA]).length + 1 =
        successCount [Op.intake ctxA dataA] + 1) :=
  C7_queue_position [Op.intake ctxA dataA] ctxB dataA
    (runOps [] [Op.intake ctxA dataA] ++ [mkTxn ctxB dataA])
    (generate_reference ctxB.clock.localDate ctxB.uuidStr)
    ((runOps [] [Op.intake ctxA dataA]).length + 1)
    (reload_of_intakeOk (by decide) (runOps [] [Op.intake ctxA dataA]) ctxB)

lemma stepQueue_extend (q : List Txn) (op : Op) :
    ∃ tail, stepQueue q op = q ++ tail := by
  cases op with
  | intake ctx data =>
    rcases hok : intakeOk data with _ | _
    · obtain ⟨h₁, -⟩ := reload_of_not_intakeOk hok q ctx
      exact ⟨[], by simp [stepQueue, h₁]⟩
    · exact ⟨[mkTxn ctx data], by simp [stepQueue, reload_of_intakeOk hok q ctx]⟩
  | queueList => exact ⟨[], by simp [stepQueue]⟩
  | statusLookup r => exact ⟨[], by simp [stepQueue]⟩

/-- C9: the queue is append-only. Any request sequence leaves the starting
queue as a prefix of the resulting queue, so every record already present
— its `reference` field included — is preserved unchanged at its position;
list and lookup requests never change the queue. -/
theorem C9_append_only (q : List Txn) (ops : List Op) :
    (∃ tail, runOps q ops = q ++ tail) ∧
      (runOps q ops).take q.length = q ∧
      stepQueue q .queueList = q ∧
      (∀ r, stepQueue q (.statusLookup r) = q) := by
  have key : ∀ (ops₂ : List Op) (q₂ : List Txn), ∃ tail, runOps q₂ ops₂ = q₂ ++ tail := by
    intro ops₂
    induction ops₂ with
    | nil =>
      intro q₂
      exact ⟨[], by simp [runOps]⟩
    | cons op ops₂ ih =>
      intro q₂
      obtain ⟨t₁, ht₁⟩ := stepQueue_extend q₂ op
      obtain ⟨t₂, ht₂⟩ := ih (stepQueue q₂ op)
      exact ⟨t₁ ++ t₂, by rw [runOps_cons, ht₂, ht₁, List.append_assoc]⟩
  obtain ⟨tail, htail⟩ := key ops q
  refine ⟨⟨tail, htail⟩, ?_, rfl, fun r => rfl⟩
  rw [htail, List.take_left]

/-! ## C8 — lookup-by-reference -/

/-- C8 (amended): when the committed reference does not already occur in
the pre-intake queue, lookup after the intake returns exactly the record
committed; a reference matching no record yields the NOT_FOUND body
(served with 404); lookups never change the queue. -/
theorem C8_lookup (q q' : List Txn) (ctx : Ctx) (data : List (String × Json))
    (r : String) (p : Nat)
    (h : reload q ctx data = (q', .queued r p))
    (hfresh : ∀ t ∈ q, t.reference ≠ r) :
    get_status q' r = .found (mkTxn ctx data) ∧
      (∀ s, (∀ t ∈ q', t.reference ≠ s) →
        get_status q' s = .notFound ("Transaction " ++ s ++ " not found")) ∧
      (∀ s, stepQueue q' (.statusLookup s) = q') := by
  obtain ⟨hok, hr, hq, hp⟩ := reload_success h
  subst hq
  refine ⟨?_, ?_, fun s => rfl⟩
  · unfold get_status
    rw [List.find?_append]
    have hnone : q.find? (fun txn => txn.reference == r) = none := by
      rw [List.find?_eq_none]
      intro t ht
      simpa using hfresh t ht
    have htrue : ((mkTxn ctx data).reference == r) = true := by
      simp [mkTxn, hr]
    rw [hnone]
    simp [List.find?, htrue]
  · intro s hs
    unfold get_status
    have hnone : (q ++ [mkTxn ctx data]).find? (fun txn => txn.reference == s) = none := by
      rw [List.find?_eq_none]
      intro t ht
      simpa using hs t ht
    rw [hnone]

/-- C8 witness: round trip after one intake into the empty queue. -/
theorem C8_lookup_witness :
    get_status ([] ++ [mkTxn ctxA dataA])
        (generate_reference ctxA.clock.localDate ctxA.uuidStr) =
      .found (mkTxn ctxA dataA) ∧
      (∀ s, (∀ t ∈ [] ++ [mkTxn ctxA dataA], t.reference ≠ s) →
        get_status ([] ++ [mkTxn ctxA dataA]) s =
          .notFound ("Transaction " ++ s ++ " not found")) ∧
      (∀ s, stepQueue ([] ++ [mkTxn ctxA dataA]) (.statusLookup s) =
        [] ++ [mkTxn ctxA dataA]) :=
  C8_lookup [] ([] ++ [mkTxn ctxA dataA]) ctxA dataA
    (generate_reference ctxA.clock.localDate ctxA.uuidStr) ([].length + 1)
    (reload_of_intakeOk (by decide) [] ctxA) (by simp)

/-- A record already in the queue before the colliding intake. -/
def seedTxn : Txn :=
  { reference := "TXN-20261012-AAAAAAAA", msisdn := .str "FIRST", promo := .str "P1",
    amount := 1, network := .str "UNKNOWN", status := "QUEUED",
    timestamp := "2026-10-12T07:00:00", remote_addr := "10.0.0.9" }

/-- A second intake body, differing from the seeded record. -/
def dataB : List (String × Json) :=
  [("msisdn", .str "SECOND"), ("promo", .str "P2"), ("amount", .int 5)]

/-- C8 counterexample: `get_status` returns the FIRST record whose
reference matches. When an intake commits a reference that already occurs
in the queue (possible, see C1), the lookup returns the earlier record,
not the one just committed: here the intake succeeds with reference
`TXN-20261012-AAAAAAAA` but the lookup returns `seedTxn`, whose msisdn
differs from the committed record's. -/
theorem C8_counterexample :
    (reload [seedTxn] ctxA dataB).2 = .queued "TXN-20261012-AAAAAAAA" 2 ∧
      ((reload [seedTxn] ctxA dataB).1).getLast? = some (mkTxn ctxA dataB) ∧
      get_status (reload [seedTxn] ctxA dataB).1 "TXN-20261012-AAAAAAAA" =
        .found seedTxn ∧
      seedTxn.msisdn = .str "FIRST" ∧ (mkTxn ctxA dataB).msisdn = .str "SECOND" ∧
      StatusResp.found seedTxn ≠ .found (mkTxn ctxA dataB) := by
  refine ⟨by decide, rfl, rfl, rfl, rfl, ?_⟩
  intro h
  injection h with h₂
  have h₃ := congrArg Txn.msisdn h₂
  rw [show seedTxn.msisdn = Json.str "FIRST" from rfl,
    show (mkTxn ctxA dataB).msisdn = Json.str "SECOND" from rfl] at h₃
  injection h₃ with h₄
  exact absurd h₄ (by decide)

/-! ## C10 — the gateway's own validation -/

lemma missing_filter_isEmpty (data : List (String × Json)) :
    ((["msisdn", "promo", "amount"].filter
        (fun f => (dictGet data f).isNone)).isEmpty = true) ↔
      ((dictGet data "msisdn").isSome ∧ (dictGet data "promo").isSome ∧
        (dictGet data "amount").isSome) := by
  rcases h₁ : dictGet data "msisdn" with _ | v₁ <;>
    rcases h₂ : dictGet data "promo" with _ | v₂ <;>
      rcases h₃ : dictGet data "amount" with _ | v₃ <;>
        simp [List.filter, h₁, h₂, h₃]

/-- An intake body whose msisdn is not a phone number and whose amount
exceeds the validator's 10000 cap. -/
def dataBig : List (String × Json) :=
  [("msisdn", .str "not-a-phone"), ("promo", .str "X"), ("amount", .int 1000000)]

/-- The binary64 value 99.5 as an exact rational. -/
def ratHalf : Rat := ⟨199, 2, by norm_num, by norm_num⟩

/-- An intake body with a fractional numeric amount. -/
def dataFrac : List (String × Json) :=
  [("msisdn", .str "09171234567"), ("promo", .str "P"), ("amount", .float ratHalf)]

/-- C10: for a non-empty submitted mapping, intake succeeds exactly when
the three required keys are present and `int(amount)` yields a strictly
positive value; the msisdn is never checked against the phone pattern
(`not-a-phone` is queued), no upper bound is enforced (1000000 is queued),
and a fractional amount (99.5) is accepted with its truncated value 99
stored. -/
theorem C10_intake_condition :
    (∀ (q : List Txn) (ctx : Ctx) (data : List (String × Json)), data ≠ [] →
      ((∃ r p, (reload q ctx data).2 = .queued r p) ↔
        ((dictGet data "msisdn").isSome ∧ (dictGet data "promo").isSome ∧
          ∃ n, pyIntOfJson ((dictGet data "amount").getD .null) = some n ∧ 0 < n))) ∧
      phoneMatch "not-a-phone" = false ∧
      (reload [] ctxA dataBig).2 = .queued "TXN-20261012-AAAAAAAA" 1 ∧
      (mkTxn ctxA dataBig).amount = 1000000 ∧
      (reload [] ctxA dataFrac).2 = .queued "TXN-20261012-AAAAAAAA" 1 ∧
      (mkTxn ctxA dataFrac).amount = 99 := by
  refine ⟨?_, by decide, by decide, by decide, by decide, by decide⟩
  intro q ctx data hne
  constructor
  · rintro ⟨r, p, hr⟩
    rcases hok : intakeOk data with _ | _
    · obtain ⟨-, m, hm⟩ := reload_of_not_intakeOk hok q ctx
      rw [hm] at hr
      cases hr
    · unfold intakeOk at hok
      simp only [Bool.and_eq_true] at hok
      obtain ⟨⟨h₁, h₂⟩, h₃⟩ := hok
      obtain ⟨hs₁, hs₂, -⟩ := (missing_filter_isEmpty data).mp h₂
      refine ⟨hs₁, hs₂, ?_⟩
      rcases he : pyIntOfJson ((dictGet data "amount").getD .null) with _ | n
      · rw [he] at h₃
        cases h₃
      · rw [he] at h₃
        exact ⟨n, rfl, by simpa using h₃⟩
  · rintro ⟨hs₁, hs₂, n, hn, hpos⟩
    have hs₃ : (dictGet data "amount").isSome := by
      rcases ha : dictGet data "amount" with _ | v
      · rw [ha] at hn
        simp [pyIntOfJson] at hn
      · rfl
    have hok : intakeOk data = true := by
      unfold intakeOk
      simp only [Bool.and_eq_true]
      refine ⟨⟨by simpa using hne, (missing_filter_isEmpty data).mpr ⟨hs₁, hs₂, hs₃⟩⟩, ?_⟩
      rw [hn]
      simpa using hpos
    rw [reload_of_intakeOk hok q ctx]
    exact ⟨_, _, rfl⟩

/-- C10 witness at the concrete body `dataA`. -/
theorem C10_intake_condition_witness :
    ((∃ r p, (reload [] ctxA dataA).2 = .queued r p) ↔
      ((dictGet dataA "msisdn").isSome ∧ (dictGet dataA "promo").isSome ∧
        ∃ n, pyIntOfJson ((dictGet dataA "amount").getD .null) = some n ∧ 0 < n)) :=
  C10_intake_condition.1 [] ctxA dataA (by simp [dataA])
